import Mathlib

/-!
# AgriWater Optimizer — verification of the scheduling engine

Shallow embedding of `src/scripts/optimizer.py` (class
`IrrigationScheduleOptimizer`): the MILP formulation built by
`build_optimization_problem`, the pipeline `optimize_schedule`, and the
evaluator `compare_baseline_vs_optimized`.  All currency/power/flow values
are modelled as exact rationals (`ℚ`); Python division by zero is modelled
as an explicit error value.
-/

set_option maxRecDepth 100000

namespace AgriWater

/-- A pump configuration record, as in the `pump_configs` dictionaries
(`{id, capacity_m3h, power_kw}`). -/
structure Pump where
  id : String
  capacity_m3h : ℚ
  power_kw : ℚ
  deriving DecidableEq, Repr

/-- The tariff configuration dictionary
(`{peak, offpeak, subscribed_power, penalty_rate}`); note the source
dictionary has no startup-cost entry. -/
structure TariffConfig where
  peak : ℚ
  offpeak : ℚ
  subscribed_power : ℚ
  penalty_rate : ℚ
  deriving DecidableEq, Repr

/-- Tariff applied at raw hour index `t`:
`self.tariff['peak'] if (7 <= t < 23) else self.tariff['offpeak']`
(optimizer.py lines 76 and 220, identical expression in both places). -/
def tariffAt (tf : TariffConfig) (t : ℕ) : ℚ :=
  if 7 ≤ t ∧ t < 23 then tf.peak else tf.offpeak

/-- Decision variables of the MILP, one constructor per family created in
`build_optimization_problem`: `pump_{id}_h{t}`, `total_power_h{t}`,
`penalty_h{t}`, `startup_{id}_h{t}`. -/
inductive Var where
  | pump (id : String) (t : ℕ)
  | power (t : ℕ)
  | pen (t : ℕ)
  | start (id : String) (t : ℕ)
  deriving DecidableEq, Repr

/-- Comparison sense of a linear constraint. -/
inductive Cmp where
  | ge
  | eq
  deriving DecidableEq, Repr

/-- One linear constraint `Σ (c·x) + const ⟨cmp⟩ 0`. -/
structure LinConstraint where
  terms : List (ℚ × Var)
  const : ℚ
  cmp : Cmp
  deriving DecidableEq, Repr

/-- Value of a linear term list under an assignment. -/
def evalTerms (v : Var → ℚ) : List (ℚ × Var) → ℚ
  | [] => 0
  | (c, x) :: rest => c * v x + evalTerms v rest

/-- Satisfaction of one linear constraint. -/
def holdsUnder (v : Var → ℚ) (c : LinConstraint) : Prop :=
  match c.cmp with
  | Cmp.ge => evalTerms v c.terms + c.const ≥ 0
  | Cmp.eq => evalTerms v c.terms + c.const = 0

instance (v : Var → ℚ) (c : LinConstraint) : Decidable (holdsUnder v c) := by
  unfold holdsUnder
  cases c.cmp <;> infer_instance

/-- Constraint group 1, demand satisfaction (one per hour):
`Σ_p pump_status[p,t]·capacity_m3h[p] ≥ demand[t]`. -/
def demandConstraint (pumps : List Pump) (demand : List ℚ) (t : ℕ) : LinConstraint :=
  ⟨pumps.map (fun p => (p.capacity_m3h, Var.pump p.id t)), -(demand.getD t 0), Cmp.ge⟩

/-- Constraint group 2, total power accounting (one per hour):
`total_power[t] = Σ_p pump_status[p,t]·power_kw[p]`. -/
def powerConstraint (pumps : List Pump) (t : ℕ) : LinConstraint :=
  ⟨(1, Var.power t) :: pumps.map (fun p => (-p.power_kw, Var.pump p.id t)), 0, Cmp.eq⟩

/-- Constraint group 3, penalty accounting (one per hour):
`penalty[t] ≥ penalty_rate·(total_power[t] − subscribed_power)`. -/
def penaltyConstraint (tf : TariffConfig) (t : ℕ) : LinConstraint :=
  ⟨[(1, Var.pen t), (-tf.penalty_rate, Var.power t)],
    tf.penalty_rate * tf.subscribed_power, Cmp.ge⟩

/-- Constraint group 4, start-up detection (per pump, per hour `t ≥ 1`):
`startup[p,t] ≥ pump_status[p,t] − pump_status[p,t−1]`. -/
def startupConstraint (p : Pump) (t : ℕ) : LinConstraint :=
  ⟨[(1, Var.start p.id t), (-1, Var.pump p.id t), (1, Var.pump p.id (t - 1))],
    0, Cmp.ge⟩

/-- Constraint group 7, start-up budget (one per pump, first window only):
`Σ_{t < min(24, horizon)} startup[p,t] ≤ 8`. -/
def maxStartupsConstraint (horizon : ℕ) (p : Pump) : LinConstraint :=
  ⟨(List.range (min 24 horizon)).map (fun t => ((-1 : ℚ), Var.start p.id t)), 8, Cmp.ge⟩

/-- The constraint list built by `build_optimization_problem` (optimizer.py
lines 94–165), groups appended in source order; the commented-out groups 5
and 6 are absent. -/
def build_constraints (pumps : List Pump) (tf : TariffConfig)
    (demand : List ℚ) (horizon : ℕ) : List LinConstraint :=
  (List.range horizon).map (demandConstraint pumps demand)
    ++ (List.range horizon).map (powerConstraint pumps)
    ++ (List.range horizon).map (penaltyConstraint tf)
    ++ pumps.flatMap (fun p => (List.range (horizon - 1)).map (fun i => startupConstraint p (i + 1)))
    ++ pumps.map (maxStartupsConstraint horizon)

/-- Objective terms contributed by hour `t` (optimizer.py lines 73–84):
energy at `tariffAt`, the penalty variable, and `5000` per start-up
indicator (a literal constant in the source). -/
def hourObjTerms (pumps : List Pump) (tf : TariffConfig) (t : ℕ) : List (ℚ × Var) :=
  (tariffAt tf t, Var.power t) :: (1, Var.pen t)
    :: pumps.map (fun p => ((5000 : ℚ), Var.start p.id t))

/-- The full objective of the built problem: `Σ_{t<horizon}` of the hourly
terms. -/
def build_objective (pumps : List Pump) (tf : TariffConfig) (horizon : ℕ) : List (ℚ × Var) :=
  (List.range horizon).flatMap (hourObjTerms pumps tf)

/-- Variable domains declared at variable creation: `pump_status` and
`startup` are `Binary`, `total_power` and `penalty` have `lowBound=0`. -/
def varDomains (pumps : List Pump) (horizon : ℕ) (v : Var → ℚ) : Prop :=
  (∀ p ∈ pumps, ∀ t < horizon, v (Var.pump p.id t) = 0 ∨ v (Var.pump p.id t) = 1)
    ∧ (∀ p ∈ pumps, ∀ t < horizon, v (Var.start p.id t) = 0 ∨ v (Var.start p.id t) = 1)
    ∧ (∀ t < horizon, 0 ≤ v (Var.power t))
    ∧ (∀ t < horizon, 0 ≤ v (Var.pen t))

instance (pumps : List Pump) (horizon : ℕ) (v : Var → ℚ) :
    Decidable (varDomains pumps horizon v) := by
  unfold varDomains
  infer_instance

/-- An assignment accepted by the formulated problem: it respects the
variable domains and satisfies every built constraint. -/
def Feasible (pumps : List Pump) (tf : TariffConfig) (demand : List ℚ)
    (horizon : ℕ) (v : Var → ℚ) : Prop :=
  varDomains pumps horizon v ∧ ∀ c ∈ build_constraints pumps tf demand horizon, holdsUnder v c

instance (pumps : List Pump) (tf : TariffConfig) (demand : List ℚ)
    (horizon : ℕ) (v : Var → ℚ) : Decidable (Feasible pumps tf demand horizon v) := by
  unfold Feasible
  infer_instance

/-- One row of the extracted schedule (the `hour_data` dictionary of
optimizer.py lines 215–235, with the `pumps_status` map omitted since it
carries the same information as `pumps_active`). -/
structure HourRecord where
  hour : ℕ
  demand_m3h : ℚ
  total_power_kw : ℚ
  penalty_fcfa : ℚ
  tariff_fcfa_kwh : ℚ
  pumps_active : List String
  energy_cost_fcfa : ℚ
  total_cost_fcfa : ℚ
  deriving DecidableEq, Repr

/-- Extraction of hour `t` from the solver assignment `v`; the penalty
field models `penalty[t].varValue if penalty[t].varValue else 0`, and a
pump is active when its variable exceeds `0.5`. -/
def extractHour (pumps : List Pump) (tf : TariffConfig) (demand : List ℚ)
    (v : Var → ℚ) (t : ℕ) : HourRecord :=
  let pen : ℚ := if v (Var.pen t) = 0 then 0 else v (Var.pen t)
  let tariff := tariffAt tf t
  let power := v (Var.power t)
  let energy_cost := power * tariff
  { hour := t
    demand_m3h := demand.getD t 0
    total_power_kw := power
    penalty_fcfa := pen
    tariff_fcfa_kwh := tariff
    pumps_active := (pumps.filter (fun p => v (Var.pump p.id t) > 1 / 2)).map Pump.id
    energy_cost_fcfa := energy_cost
    total_cost_fcfa := energy_cost + pen }

/-- The extraction loop `for t in range(horizon_hours)` of
`optimize_schedule`. -/
def extractSchedule (pumps : List Pump) (tf : TariffConfig) (demand : List ℚ)
    (v : Var → ℚ) (horizon : ℕ) : List HourRecord :=
  (List.range horizon).map (extractHour pumps tf demand v)

/-- PuLP solve statuses as reported by `LpStatus[prob.status]`;
`notSolved` is the time-limited incumbent case (a feasible but not
proven-optimal solution). -/
inductive SolveStatus where
  | optimal
  | notSolved
  | infeasible
  | unbounded
  | undefined
  deriving DecidableEq, Repr

/-- The `self.solution` dictionary assembled on the success path. -/
structure Solution where
  schedule : List HourRecord
  total_cost : ℚ
  total_energy : ℚ
  total_penalties : ℚ
  status : SolveStatus
  deriving DecidableEq, Repr

/-- Outcome of one call to `optimize_schedule`: a raised
`ZeroDivisionError` (the summary print divides `total_penalties` by
`total_cost_optimized`), the `return None` branch for a non-Optimal
status, or the populated solution. -/
inductive OptResult where
  | zeroDivError
  | noSolution
  | ok (sol : Solution)
  deriving DecidableEq, Repr

/-- Whether the pipeline returned a populated solution. -/
def OptResult.isOk : OptResult → Bool
  | .ok _ => true
  | _ => false

/-- Effective horizon after the preliminary check
`if len(self.demand) < horizon_hours: horizon_hours = len(self.demand)`.
The requested horizon is an integer, as in Python, so that non-positive
requests can be expressed. -/
def effHorizon (demand : List ℚ) (horizon_hours : ℤ) : ℤ :=
  if (demand.length : ℤ) < horizon_hours then (demand.length : ℤ) else horizon_hours

/-- The problem handed to the solver: the built constraint list and the
built objective. -/
def builtProblem (pumps : List Pump) (tf : TariffConfig) (demand : List ℚ)
    (H : ℕ) : List LinConstraint × List (ℚ × Var) :=
  (build_constraints pumps tf demand H, build_objective pumps tf H)

/-- The pipeline `optimize_schedule` (optimizer.py lines 171–256).  The
solver backend is an external collaborator, passed as a function from the
built problem (constraints and objective) to a status and an assignment.
Python's `range(h)` is empty for `h ≤ 0`, hence the `toNat`.  There is no
input-validation step: the problem is always built and handed to the
solver. -/
def optimize_schedule (pumps : List Pump) (tf : TariffConfig) (demand : List ℚ)
    (horizon_hours : ℤ)
    (solver : List LinConstraint × List (ℚ × Var) → SolveStatus × (Var → ℚ)) :
    OptResult :=
  let H : ℕ := (effHorizon demand horizon_hours).toNat
  let res := solver (builtProblem pumps tf demand H)
  if res.1 ≠ SolveStatus.optimal then OptResult.noSolution
  else
    let schedule := extractSchedule pumps tf demand res.2 H
    let total_cost := (schedule.map HourRecord.total_cost_fcfa).sum
    let total_energy := (schedule.map HourRecord.total_power_kw).sum
    let total_penalties := (schedule.map HourRecord.penalty_fcfa).sum
    if total_cost = 0 then OptResult.zeroDivError
    else OptResult.ok ⟨schedule, total_cost, total_energy, total_penalties, SolveStatus.optimal⟩

/-- One row of the baseline record sequence consumed by the comparator
(the columns of `irrigation_data.csv` it reads: `total_cost_fcfa`,
`power_kw`, `penalty_fcfa`); the generator emits one such row per pump per
hour, in hour-major order. -/
structure BaselineRow where
  power_kw : ℚ
  penalty_fcfa : ℚ
  total_cost_fcfa : ℚ
  deriving DecidableEq, Repr

/-- Python float division, `none` when the denominator is zero (in the
source this case is a NaN/inf/`ZeroDivisionError`, never a number). -/
def safeDiv (a b : ℚ) : Option ℚ :=
  if b = 0 then none else some (a / b)

/-- The values computed by `compare_baseline_vs_optimized`: the returned
dictionary plus the percentage intermediates it computes (the penalty
percentage is only printed, but its guard is part of the computation). -/
structure ComparisonResult where
  baseline_cost : ℚ
  optimized_cost : ℚ
  savings_fcfa : ℚ
  savings_percent : Option ℚ
  energy_savings_kwh : ℚ
  energy_savings_percent : Option ℚ
  penalty_reduction : ℚ
  penalty_savings_percent : Option ℚ
  monthly_savings_projection : Option ℚ
  annual_savings_projection : Option ℚ
  deriving DecidableEq, Repr

/-- `compare_baseline_vs_optimized` (optimizer.py lines 258–328): truncate
the baseline to `horizon * len(self.pumps)` rows, sum cost/energy/penalty,
compute savings, percentages (only the penalty percentage carries a
zero-denominator guard), and the monthly (`/horizon × 720`) and annual
(`× 12`) projections. -/
def compare_baseline_vs_optimized (pumps : List Pump) (sol : Solution)
    (baseline_data : List BaselineRow) : ComparisonResult :=
  let horizon := sol.schedule.length
  let baseline_subset := baseline_data.take (horizon * pumps.length)
  let baseline_cost := (baseline_subset.map BaselineRow.total_cost_fcfa).sum
  let baseline_energy := (baseline_subset.map BaselineRow.power_kw).sum
  let baseline_penalties := (baseline_subset.map BaselineRow.penalty_fcfa).sum
  let cost_savings := baseline_cost - sol.total_cost
  let energy_savings := baseline_energy - sol.total_energy
  let penalty_savings := baseline_penalties - sol.total_penalties
  { baseline_cost := baseline_cost
    optimized_cost := sol.total_cost
    savings_fcfa := cost_savings
    savings_percent := (safeDiv cost_savings baseline_cost).map (· * 100)
    energy_savings_kwh := energy_savings
    energy_savings_percent := (safeDiv energy_savings baseline_energy).map (· * 100)
    penalty_reduction := penalty_savings
    penalty_savings_percent :=
      if baseline_penalties > 0 then (safeDiv penalty_savings baseline_penalties).map (· * 100)
      else some 0
    monthly_savings_projection := (safeDiv cost_savings (horizon : ℚ)).map (· * 720)
    annual_savings_projection :=
      ((safeDiv cost_savings (horizon : ℚ)).map (· * 720)).map (· * 12) }

/-- Modelled from the spec: hourly objective terms with the TariffSchedule
carrying a configured per-start cost (`startup_cost`, ≥ 0) in place of the
source's literal `5000` — the spec's
`Σ_t [ total_power[t]·tariff(t) + penalty[t] + Σ_p startup[p,t]·startup_cost ]`.
The source's `tariff_config` has no such entry, so this definition exists
only to be compared with `build_objective`. -/
def specObjTerms (pumps : List Pump) (tf : TariffConfig) (startupCost : ℚ)
    (t : ℕ) : List (ℚ × Var) :=
  (tariffAt tf t, Var.power t) :: (1, Var.pen t)
    :: pumps.map (fun p => (startupCost, Var.start p.id t))

/-- Modelled from the spec: the full objective with a configured per-start
cost. -/
def spec_objective (pumps : List Pump) (tf : TariffConfig) (startupCost : ℚ)
    (horizon : ℕ) : List (ℚ × Var) :=
  (List.range horizon).flatMap (specObjTerms pumps tf startupCost)

/-! Concrete instances used by witnesses and counterexamples.  The pump
and tariff data are the demo configuration of `run_optimization_demo`
(optimizer.py lines 354–366). -/

/-- Demo pump P1: 60 m³/h, 45 kW. -/
def pumpP1 : Pump := ⟨"P1", 60, 45⟩

/-- Demo pump P2: 50 m³/h, 38 kW. -/
def pumpP2 : Pump := ⟨"P2", 50, 38⟩

/-- Demo pump P3: 55 m³/h, 42 kW. -/
def pumpP3 : Pump := ⟨"P3", 55, 42⟩

/-- Demo tariff configuration: peak 110, off-peak 75, subscribed power
150 kW, penalty rate 200. -/
def tariffDemo : TariffConfig := ⟨110, 75, 150, 200⟩

/-- A concrete assignment: every pump on in every hour, total power 45,
no penalties, no start-ups.  Feasible for one pump `pumpP1` against
demand 50 over one hour. -/
def wAssign : Var → ℚ
  | Var.pump _ _ => 1
  | Var.power _ => 45
  | Var.pen _ => 0
  | Var.start _ _ => 0

/-- A concrete assignment for a 25-hour horizon: no pump ever runs, yet
the `startup` indicators are set for hours 16–24.  Only 8 of them fall in
the first 24-hour window, but 9 fall in the window of hours 1–24. -/
def cexStart : Var → ℚ
  | Var.start _ t => if 16 ≤ t ∧ t ≤ 24 then 1 else 0
  | _ => 0

/-- A concrete assignment in which every start-up indicator is set. -/
def vStart1 : Var → ℚ
  | Var.pump _ _ => 0
  | Var.power _ => 0
  | Var.pen _ => 0
  | Var.start _ _ => 1

/-- The zero assignment. -/
def vZero : Var → ℚ := fun _ => 0

/-- A concrete one-hour solution record (pump P1 on for one hour: power
2, tariff 3, energy cost 6, no penalty). -/
def solDemo : Solution :=
  ⟨[⟨0, 50, 2, 0, 3, ["P1"], 6, 6⟩], 6, 2, 0, SolveStatus.optimal⟩

/-- A baseline of one all-zero row: zero total cost over the compared
window. -/
def baselineZero : List BaselineRow := [⟨0, 0, 0⟩]

/-- A concrete baseline block structure: one hour, one pump row. -/
def baselineBlocksDemo : List (List BaselineRow) := [[⟨50, 10, 40⟩]]

/-! ## Helper lemmas about linear-term evaluation -/

theorem evalTerms_append (v : Var → ℚ) (l₁ l₂ : List (ℚ × Var)) :
    evalTerms v (l₁ ++ l₂) = evalTerms v l₁ + evalTerms v l₂ := by
  induction l₁ with
  | nil => simp [evalTerms]
  | cons p rest ih =>
    cases p
    simp only [List.cons_append, evalTerms, List.append_eq, ih]
    ring

theorem evalTerms_capacity (v : Var → ℚ) (pumps : List Pump) (t : ℕ) :
    evalTerms v (pumps.map fun p => (p.capacity_m3h, Var.pump p.id t))
      = (pumps.map fun p => v (Var.pump p.id t) * p.capacity_m3h).sum := by
  induction pumps with
  | nil => rfl
  | cons p rest ih =>
    simp only [List.map_cons, evalTerms, List.sum_cons, ih]
    ring

theorem evalTerms_neg_power (v : Var → ℚ) (pumps : List Pump) (t : ℕ) :
    evalTerms v (pumps.map fun p => (-p.power_kw, Var.pump p.id t))
      = -((pumps.map fun p => v (Var.pump p.id t) * p.power_kw).sum) := by
  induction pumps with
  | nil => simp [evalTerms]
  | cons p rest ih =>
    simp only [List.map_cons, evalTerms, List.sum_cons, ih]
    ring

theorem evalTerms_start_const (v : Var → ℚ) (c : ℚ) (pumps : List Pump) (t : ℕ) :
    evalTerms v (pumps.map fun p => (c, Var.start p.id t))
      = (pumps.map fun p => v (Var.start p.id t) * c).sum := by
  induction pumps with
  | nil => rfl
  | cons p rest ih =>
    simp only [List.map_cons, evalTerms, List.sum_cons, ih]
    ring

theorem evalTerms_neg_one_start (v : Var → ℚ) (l : List ℕ) (pid : String) :
    evalTerms v (l.map fun t => ((-1 : ℚ), Var.start pid t))
      = -((l.map fun t => v (Var.start pid t)).sum) := by
  induction l with
  | nil => simp [evalTerms]
  | cons a rest ih =>
    simp only [List.map_cons, evalTerms, List.sum_cons, ih]
    ring

/-! ## Feasibility extraction lemmas, one per constraint group -/

theorem feasible_demand {pumps : List Pump} {tf : TariffConfig} {demand : List ℚ}
    {H : ℕ} {v : Var → ℚ} (hf : Feasible pumps tf demand H v) {t : ℕ} (ht : t < H) :
    (pumps.map fun p => v (Var.pump p.id t) * p.capacity_m3h).sum ≥ demand.getD t 0 := by
  have hmem : demandConstraint pumps demand t ∈ build_constraints pumps tf demand H := by
    unfold build_constraints
    simp only [List.mem_append]
    exact Or.inl (Or.inl (Or.inl (Or.inl (List.mem_map_of_mem _ (List.mem_range.mpr ht)))))
  have hc := hf.2 _ hmem
  unfold holdsUnder demandConstraint at hc
  simp only at hc
  rw [evalTerms_capacity] at hc
  linarith

theorem feasible_power {pumps : List Pump} {tf : TariffConfig} {demand : List ℚ}
    {H : ℕ} {v : Var → ℚ} (hf : Feasible pumps tf demand H v) {t : ℕ} (ht : t < H) :
    v (Var.power t) = (pumps.map fun p => v (Var.pump p.id t) * p.power_kw).sum := by
  have hmem : powerConstraint pumps t ∈ build_constraints pumps tf demand H := by
    unfold build_constraints
    simp only [List.mem_append]
    exact Or.inl (Or.inl (Or.inl (Or.inr (List.mem_map_of_mem _ (List.mem_range.mpr ht)))))
  have hc := hf.2 _ hmem
  unfold holdsUnder powerConstraint at hc
  simp only [evalTerms] at hc
  rw [evalTerms_neg_power] at hc
  linarith

theorem feasible_penalty {pumps : List Pump} {tf : TariffConfig} {demand : List ℚ}
    {H : ℕ} {v : Var → ℚ} (hf : Feasible pumps tf demand H v) {t : ℕ} (ht : t < H) :
    v (Var.pen t) ≥ tf.penalty_rate * (v (Var.power t) - tf.subscribed_power) := by
  have hmem : penaltyConstraint tf t ∈ build_constraints pumps tf demand H := by
    unfold build_constraints
    simp only [List.mem_append]
    exact Or.inl (Or.inl (Or.inr (List.mem_map_of_mem _ (List.mem_range.mpr ht))))
  have hc := hf.2 _ hmem
  unfold holdsUnder penaltyConstraint at hc
  simp only [evalTerms] at hc
  nlinarith [hc]

theorem feasible_startup {pumps : List Pump} {tf : TariffConfig} {demand : List ℚ}
    {H : ℕ} {v : Var → ℚ} (hf : Feasible pumps tf demand H v) {p : Pump}
    (hp : p ∈ pumps) {t : ℕ} (h1 : 1 ≤ t) (ht : t < H) :
    v (Var.start p.id t) ≥ v (Var.pump p.id t) - v (Var.pump p.id (t - 1)) := by
  have hmem : startupConstraint p t ∈ build_constraints pumps tf demand H := by
    unfold build_constraints
    simp only [List.mem_append]
    refine Or.inl (Or.inr ?_)
    refine List.mem_flatMap.mpr ⟨p, hp, ?_⟩
    have hidx : t - 1 ∈ List.range (H - 1) := List.mem_range.mpr (by omega)
    have := List.mem_map_of_mem (fun i => startupConstraint p (i + 1)) hidx
    simpa [Nat.sub_add_cancel h1] using this
  have hc := hf.2 _ hmem
  unfold holdsUnder startupConstraint at hc
  simp only [evalTerms] at hc
  linarith

theorem feasible_max_startups {pumps : List Pump} {tf : TariffConfig} {demand : List ℚ}
    {H : ℕ} {v : Var → ℚ} (hf : Feasible pumps tf demand H v) {p : Pump}
    (hp : p ∈ pumps) :
    ((List.range (min 24 H)).map fun t => v (Var.start p.id t)).sum ≤ 8 := by
  have hmem : maxStartupsConstraint H p ∈ build_constraints pumps tf demand H := by
    unfold build_constraints
    simp only [List.mem_append]
    exact Or.inr (List.mem_map_of_mem _ hp)
  have hc := hf.2 _ hmem
  unfold holdsUnder maxStartupsConstraint at hc
  simp only at hc
  rw [evalTerms_neg_one_start] at hc
  linarith

/-! ## Claims -/

/-- C1: for every hour `t` of the horizon, any assignment satisfying the
constraints built by `build_optimization_problem` satisfies demand
coverage `Σ_p active[p,t]·capacity[p] ≥ demand[t]`, the power-accounting
equality `total_power[t] = Σ_p active[p,t]·power_draw[p]`, the penalty
bounds `penalty[t] ≥ penalty_rate·(total_power[t] − subscribed_power)`
and `penalty[t] ≥ 0`, and for `t > 0` the startup-detection inequality
`startup[p,t] ≥ active[p,t] − active[p,t−1]` for every pump `p`. -/
theorem C1_feasible_satisfies_invariants (pumps : List Pump) (tf : TariffConfig)
    (demand : List ℚ) (H : ℕ) (v : Var → ℚ)
    (hf : Feasible pumps tf demand H v) (t : ℕ) (ht : t < H) :
    ((pumps.map fun p => v (Var.pump p.id t) * p.capacity_m3h).sum ≥ demand.getD t 0)
    ∧ (v (Var.power t) = (pumps.map fun p => v (Var.pump p.id t) * p.power_kw).sum)
    ∧ (v (Var.pen t) ≥ tf.penalty_rate * (v (Var.power t) - tf.subscribed_power))
    ∧ (0 ≤ v (Var.pen t))
    ∧ (∀ p ∈ pumps, 1 ≤ t →
        v (Var.start p.id t) ≥ v (Var.pump p.id t) - v (Var.pump p.id (t - 1))) := by
  refine ⟨feasible_demand hf ht, feasible_power hf ht, feasible_penalty hf ht,
    hf.1.2.2.2 t ht, fun p hp h1 => feasible_startup hf hp h1 ht⟩

/-- Witness for C1 at a concrete feasible point: one pump (P1), demand 50
for one hour, P1 running. -/
theorem C1_witness :
    (([pumpP1].map fun p => wAssign (Var.pump p.id 0) * p.capacity_m3h).sum
        ≥ [(50 : ℚ)].getD 0 0)
    ∧ (wAssign (Var.power 0) = ([pumpP1].map fun p => wAssign (Var.pump p.id 0) * p.power_kw).sum)
    ∧ (wAssign (Var.pen 0) ≥ tariffDemo.penalty_rate * (wAssign (Var.power 0) - tariffDemo.subscribed_power))
    ∧ (0 ≤ wAssign (Var.pen 0))
    ∧ (∀ p ∈ [pumpP1], 1 ≤ 0 →
        wAssign (Var.start p.id 0) ≥ wAssign (Var.pump p.id 0) - wAssign (Var.pump p.id (0 - 1))) :=
  C1_feasible_satisfies_invariants [pumpP1] tariffDemo [(50 : ℚ)] 1 wAssign
    (by with_unfolding_all decide) 0 (by decide)

/-- C5 counterexample: a concrete assignment accepted by the problem
formulated for a 25-hour horizon (one pump, zero demand) in which the
rolling 24-hour window of hours 1–24 contains 9 start-up events, above
the cap of 8.  Only the first `min(24, horizon)` hours are constrained by
the source. -/
theorem C5_counterexample :
    Feasible [pumpP1] tariffDemo (List.replicate 25 (0 : ℚ)) 25 cexStart
    ∧ ¬ (((List.range 24).map fun i => cexStart (Var.start "P1" (1 + i))).sum ≤ 8) := by
  with_unfolding_all decide

/-- C5 amended: in any solution accepted by the formulated problem, for
every pump `p`, the number of start-up events `Σ_t startup[p,t]` over the
first `min(24, horizon)` hours does not exceed the daily cap of 8; later
24-hour windows of longer horizons are not constrained. -/
theorem C5_first_window_cap (pumps : List Pump) (tf : TariffConfig)
    (demand : List ℚ) (H : ℕ) (v : Var → ℚ)
    (hf : Feasible pumps tf demand H v) (p : Pump) (hp : p ∈ pumps) :
    ((List.range (min 24 H)).map fun t => v (Var.start p.id t)).sum ≤ 8 :=
  feasible_max_startups hf hp

/-- Witness for C5's amended cap at the concrete feasible point. -/
theorem C5_witness :
    ((List.range (min 24 1)).map fun t => wAssign (Var.start pumpP1.id t)).sum ≤ 8 :=
  C5_first_window_cap [pumpP1] tariffDemo [(50 : ℚ)] 1 wAssign (by with_unfolding_all decide)
    pumpP1 (by with_unfolding_all decide)

theorem evalTerms_flatMap (v : Var → ℚ) {α : Type} (l : List α)
    (f : α → List (ℚ × Var)) :
    evalTerms v (l.flatMap f) = (l.map fun a => evalTerms v (f a)).sum := by
  induction l with
  | nil => simp [evalTerms]
  | cons a rest ih =>
    simp only [List.flatMap_cons, List.map_cons, List.sum_cons, evalTerms_append, ih]

theorem evalTerms_hourObj (v : Var → ℚ) (pumps : List Pump) (tf : TariffConfig) (t : ℕ) :
    evalTerms v (hourObjTerms pumps tf t)
      = v (Var.power t) * tariffAt tf t + v (Var.pen t)
        + (pumps.map fun p => v (Var.start p.id t) * 5000).sum := by
  simp only [hourObjTerms, evalTerms, evalTerms_start_const]
  ring

/-- C6 counterexample: the start-up cost in the built objective is the
literal constant 5000, not a configured tariff entry.  At a one-pump,
one-hour instance with the start-up indicator set, the built objective
evaluates to 5000, while the spec's objective with a configured per-start
cost of 0 (a legal value, ≥ 0) evaluates to 0. -/
theorem C6_counterexample :
    evalTerms vStart1 (build_objective [pumpP1] tariffDemo 1) = 5000
    ∧ evalTerms vStart1 (spec_objective [pumpP1] tariffDemo 0 1) = 0 := by
  constructor <;>
    simp [build_objective, spec_objective, hourObjTerms, specObjTerms,
      evalTerms, tariffAt, vStart1, List.range_succ]

/-- C6 amended: the objective minimized by the formulated MILP equals
`Σ_t [ total_power[t]·tariff(t) + penalty[t] + Σ_p startup[p,t]·5000 ]`,
where `tariff(t)` is the peak rate exactly for hours 7–22 inclusive
(`tariffAt`) and the per-start cost is the fixed constant 5000 — the
tariff configuration has no per-start cost entry. -/
theorem C6_objective_is_sum_with_constant_startup_cost (pumps : List Pump)
    (tf : TariffConfig) (H : ℕ) (v : Var → ℚ) :
    evalTerms v (build_objective pumps tf H)
      = ((List.range H).map fun t =>
          v (Var.power t) * tariffAt tf t + v (Var.pen t)
            + (pumps.map fun p => v (Var.start p.id t) * 5000).sum).sum := by
  unfold build_objective
  rw [evalTerms_flatMap]
  simp only [evalTerms_hourObj]

/-- C9: the tariff selection uses the raw hour index `t`, not the
hour-of-day `t mod 24`: every hour with index `t ≥ 23` is priced at the
off-peak rate, both in the objective terms and in the extracted schedule
record, regardless of the time of day it represents. -/
theorem C9_raw_hour_index_tariff (pumps : List Pump) (tf : TariffConfig)
    (demand : List ℚ) (v : Var → ℚ) (t : ℕ) (ht : 23 ≤ t) :
    tariffAt tf t = tf.offpeak
    ∧ (extractHour pumps tf demand v t).tariff_fcfa_kwh = tf.offpeak
    ∧ hourObjTerms pumps tf t
        = (tf.offpeak, Var.power t) :: (1, Var.pen t)
          :: (pumps.map fun p => ((5000 : ℚ), Var.start p.id t)) := by
  have h : tariffAt tf t = tf.offpeak := by
    unfold tariffAt
    rw [if_neg (by omega)]
  exact ⟨h, by simp [extractHour, h], by simp [hourObjTerms, h]⟩

/-- Witness for C9 at the concrete hour index 23 of a longer horizon. -/
theorem C9_witness :
    tariffAt tariffDemo 23 = tariffDemo.offpeak
    ∧ (extractHour [pumpP1] tariffDemo [] vZero 23).tariff_fcfa_kwh = tariffDemo.offpeak
    ∧ hourObjTerms [pumpP1] tariffDemo 23
        = (tariffDemo.offpeak, Var.power 23) :: (1, Var.pen 23)
          :: ([pumpP1].map fun p => ((5000 : ℚ), Var.start p.id 23)) :=
  C9_raw_hour_index_tariff [pumpP1] tariffDemo [] vZero 23 (by decide)

/-- C2 counterexample: with the solver reporting the time-limited
feasible status (`Not Solved`) on an incumbent assignment that satisfies
every constraint, the pipeline returns `None` — the claim requires a
populated Schedule for a Feasible status. -/
theorem C2_counterexample :
    (optimize_schedule [pumpP1] tariffDemo [(50 : ℚ)] 1
        (fun _ => (SolveStatus.notSolved, wAssign))).isOk = false
    ∧ optimize_schedule [pumpP1] tariffDemo [(50 : ℚ)] 1
        (fun _ => (SolveStatus.notSolved, wAssign)) = OptResult.noSolution := by
  with_unfolding_all decide

/-- C2 amended: the pipeline returns a populated Schedule exactly when
the solver status is `Optimal` and the reporting division does not fault
(the extracted total cost is nonzero); for every other status —
including the time-limited feasible `Not Solved` — it returns `None`,
never a partially-populated Schedule. -/
theorem C2_only_optimal_populates (pumps : List Pump) (tf : TariffConfig)
    (demand : List ℚ) (h : ℤ)
    (solver : List LinConstraint × List (ℚ × Var) → SolveStatus × (Var → ℚ)) :
    (optimize_schedule pumps tf demand h solver).isOk = true
    ↔ ((solver (builtProblem pumps tf demand (effHorizon demand h).toNat)).1
          = SolveStatus.optimal
        ∧ ((extractSchedule pumps tf demand
              (solver (builtProblem pumps tf demand (effHorizon demand h).toNat)).2
              (effHorizon demand h).toNat).map HourRecord.total_cost_fcfa).sum ≠ 0) := by
  by_cases h1 : (solver (builtProblem pumps tf demand (effHorizon demand h).toNat)).1
      = SolveStatus.optimal
  · by_cases h2 : ((extractSchedule pumps tf demand
        (solver (builtProblem pumps tf demand (effHorizon demand h).toNat)).2
        (effHorizon demand h).toNat).map HourRecord.total_cost_fcfa).sum = 0
    · simp [optimize_schedule, h1, h2, OptResult.isOk]
    · simp [optimize_schedule, h1, h2, OptResult.isOk]
  · simp [optimize_schedule, h1, OptResult.isOk]

/-- C10: on the success path, `optimize_schedule` divides the total
penalties by the total optimized cost in its summary report; whenever the
solver returns `Optimal` and the extracted schedule has zero total cost
(for example, an all-zero demand forecast with no pump running), the call
raises a division-by-zero error instead of returning the Schedule. -/
theorem C10_zero_cost_division_error (pumps : List Pump) (tf : TariffConfig)
    (demand : List ℚ) (h : ℤ) (assign : Var → ℚ)
    (solver : List LinConstraint × List (ℚ × Var) → SolveStatus × (Var → ℚ))
    (hsol : solver (builtProblem pumps tf demand (effHorizon demand h).toNat)
        = (SolveStatus.optimal, assign))
    (hcost : ((extractSchedule pumps tf demand assign
        (effHorizon demand h).toNat).map HourRecord.total_cost_fcfa).sum = 0) :
    optimize_schedule pumps tf demand h solver = OptResult.zeroDivError := by
  simp [optimize_schedule, hsol, hcost]

/-- Witness for C10: all-zero demand over two hours, the zero assignment
(no pump runs, zero cost) returned as optimal. -/
theorem C10_witness :
    optimize_schedule [pumpP1] tariffDemo [(0 : ℚ), 0] 2
        (fun _ => (SolveStatus.optimal, vZero)) = OptResult.zeroDivError :=
  C10_zero_cost_division_error [pumpP1] tariffDemo [(0 : ℚ), 0] 2 vZero
    (fun _ => (SolveStatus.optimal, vZero)) rfl (by with_unfolding_all decide)

/-- C7: if the demand forecast is shorter than the requested horizon, the
effective horizon used for formulation equals the forecast length, and
any populated Schedule returned by the pipeline has exactly that
truncated number of per-hour records. -/
theorem C7_truncation (pumps : List Pump) (tf : TariffConfig) (demand : List ℚ)
    (h : ℤ)
    (solver : List LinConstraint × List (ℚ × Var) → SolveStatus × (Var → ℚ))
    (hlt : (demand.length : ℤ) < h) :
    effHorizon demand h = demand.length
    ∧ ∀ sol, optimize_schedule pumps tf demand h solver = OptResult.ok sol →
        sol.schedule.length = demand.length := by
  have he : effHorizon demand h = (demand.length : ℤ) := if_pos hlt
  refine ⟨he, fun sol hok => ?_⟩
  simp only [optimize_schedule] at hok
  split at hok
  · exact absurd hok (by simp)
  · split at hok
    · exact absurd hok (by simp)
    · cases hok
      simp [extractSchedule, he]

/-- Witness for C7: a two-hour forecast with a requested horizon of 5
truncates to 2 records. -/
theorem C7_witness :
    effHorizon [(50 : ℚ), 60] 5 = 2
    ∧ ∀ sol, optimize_schedule [pumpP1] tariffDemo [(50 : ℚ), 60] 5
          (fun _ => (SolveStatus.optimal, wAssign)) = OptResult.ok sol →
        sol.schedule.length = 2 :=
  C7_truncation [pumpP1] tariffDemo [(50 : ℚ), 60] 5
    (fun _ => (SolveStatus.optimal, wAssign)) (by decide)

/-- C4 counterexample: a zero-horizon request is not rejected before
formulation — the empty problem is built, handed to the solver, and on an
`Optimal` status the pipeline crashes on the reporting division instead
of reporting an input-validation failure; and for an empty pump list the
MILP is still formulated (a nonempty constraint list is built). -/
theorem C4_counterexample :
    optimize_schedule [] tariffDemo [(5 : ℚ)] 0
        (fun _ => (SolveStatus.optimal, vZero)) = OptResult.zeroDivError
    ∧ build_constraints [] tariffDemo [(5 : ℚ)] 1 ≠ [] := by
  with_unfolding_all decide

/-- C4 amended: the pipeline performs no input validation.  With an
empty pump list and positive demand the formulated problem admits no
feasible assignment — the demand-coverage constraint reads
`0 ≥ demand[t] > 0` — so the rejection surfaces only through the
solver's non-`Optimal` status, whereupon `optimize_schedule` returns
`None`; non-positive horizons are likewise never rejected up front. -/
theorem C4_no_validation_solver_rejects (tf : TariffConfig) (demand : List ℚ)
    (H : ℕ) (t : ℕ) (v : Var → ℚ) (h : ℤ) (assign : Var → ℚ)
    (ht : t < H) (hd : 0 < demand.getD t 0) :
    ¬ Feasible [] tf demand H v
    ∧ optimize_schedule [] tf demand h (fun _ => (SolveStatus.infeasible, assign))
        = OptResult.noSolution := by
  constructor
  · intro hf
    have hcov := feasible_demand hf ht
    simp only [List.map_nil, List.sum_nil] at hcov
    linarith
  · simp [optimize_schedule]

/-- Witness for C4's amended statement at a concrete instance. -/
theorem C4_witness :
    ¬ Feasible [] tariffDemo [(5 : ℚ)] 1 vZero
    ∧ optimize_schedule [] tariffDemo [(5 : ℚ)] 24
        (fun _ => (SolveStatus.infeasible, vZero)) = OptResult.noSolution :=
  C4_no_validation_solver_rejects tariffDemo [(5 : ℚ)] 1 0 vZero 24 vZero
    (by decide) (by with_unfolding_all decide)

/-- C3 counterexample: a baseline whose total cost over the compared
window is 0 yields an undefined (division-by-zero) cost-savings
percentage, not the claimed 0. -/
theorem C3_counterexample :
    (compare_baseline_vs_optimized [pumpP1] solDemo baselineZero).baseline_cost = 0
    ∧ (compare_baseline_vs_optimized [pumpP1] solDemo baselineZero).savings_percent
        = none := by
  with_unfolding_all decide

/-- C3 amended: the division-by-zero guard exists only for the
penalty-savings percentage; when the baseline total cost over the
compared window is 0, the cost-savings percentage is the undefined
division-by-zero value, not 0, while a zero baseline penalty total does
yield a reported 0 for the penalty percentage. -/
theorem C3_guard_only_for_penalty (pumps : List Pump) (sol : Solution)
    (baseline : List BaselineRow)
    (hc : ((baseline.take (sol.schedule.length * pumps.length)).map
        BaselineRow.total_cost_fcfa).sum = 0)
    (hp : ((baseline.take (sol.schedule.length * pumps.length)).map
        BaselineRow.penalty_fcfa).sum = 0) :
    (compare_baseline_vs_optimized pumps sol baseline).savings_percent = none
    ∧ (compare_baseline_vs_optimized pumps sol baseline).penalty_savings_percent
        = some 0 := by
  have hc' : ((baseline.map BaselineRow.total_cost_fcfa).take
      (sol.schedule.length * pumps.length)).sum = 0 := by
    rw [← List.map_take]
    exact hc
  have hp' : ((baseline.map BaselineRow.penalty_fcfa).take
      (sol.schedule.length * pumps.length)).sum = 0 := by
    rw [← List.map_take]
    exact hp
  constructor <;> simp [compare_baseline_vs_optimized, safeDiv, hc', hp']

/-- Witness for C3's amended statement at the concrete all-zero
baseline. -/
theorem C3_witness :
    (compare_baseline_vs_optimized [pumpP1] solDemo baselineZero).savings_percent = none
    ∧ (compare_baseline_vs_optimized [pumpP1] solDemo baselineZero).penalty_savings_percent
        = some 0 :=
  C3_guard_only_for_penalty [pumpP1] solDemo baselineZero
    (by with_unfolding_all decide) (by with_unfolding_all decide)

theorem take_length_add {α : Type} (l₁ l₂ : List α) (m : ℕ) :
    (l₁ ++ l₂).take (l₁.length + m) = l₁ ++ l₂.take m := by
  induction l₁ with
  | nil => simp
  | cons a rest ih =>
    simp only [List.cons_append, List.length_cons]
    rw [Nat.add_right_comm, List.take_succ_cons, ih]

theorem take_flatten_blocks {α : Type} (n : ℕ) (blocks : List (List α)) (H : ℕ)
    (hlen : ∀ b ∈ blocks, b.length = n) (hcov : H ≤ blocks.length) :
    (blocks.flatten).take (H * n) = (blocks.take H).flatten := by
  induction H generalizing blocks with
  | zero => simp
  | succ H ih =>
    cases blocks with
    | nil => simp at hcov
    | cons b bs =>
      have hb : b.length = n := hlen b (List.mem_cons_self _ _)
      have hrest : ∀ c ∈ bs, c.length = n := fun c hc => hlen c (List.mem_cons_of_mem _ hc)
      have hcov2 : H ≤ bs.length := by
        simp only [List.length_cons] at hcov
        omega
      calc ((b :: bs).flatten).take ((H + 1) * n)
          = (b ++ bs.flatten).take (b.length + H * n) := by
            rw [List.flatten_cons, hb]
            congr 1
            ring
        _ = b ++ (bs.flatten).take (H * n) := take_length_add _ _ _
        _ = b ++ (bs.take H).flatten := by rw [ih bs hrest hcov2]
        _ = ((b :: bs).take (H + 1)).flatten := by
            rw [List.take_succ_cons, List.flatten_cons]

theorem sum_map_flatten {α : Type} (blocks : List (List α)) (f : α → ℚ) :
    ((blocks.map (List.map f)).flatten).sum = (blocks.map fun b => (b.map f).sum).sum := by
  induction blocks with
  | nil => simp
  | cons b bs ih => simp [List.flatten_cons, ih]

theorem take_flatten_map_sum {α : Type} (n : ℕ) (H : ℕ) (blocks : List (List α))
    (f : α → ℚ) (hlen : ∀ b ∈ blocks, b.length = n) (hcov : H ≤ blocks.length) :
    (List.take (H * n) (List.map (List.map f) blocks).flatten).sum
      = (List.take H (List.map (fun b => (List.map f b).sum) blocks)).sum := by
  have h1 : ((blocks.map (List.map f)).flatten).take (H * n)
      = ((blocks.map (List.map f)).take H).flatten := by
    refine take_flatten_blocks n _ H ?_ (by simpa using hcov)
    intro b hb
    obtain ⟨c, hc, rfl⟩ := List.mem_map.mp hb
    simp [hlen c hc]
  rw [h1, ← List.map_take, sum_map_flatten, List.map_take]

/-- C8: given an optimized Schedule of `H` hours and a baseline arranged
as per-hour blocks of one row per pump covering at least `H` hours, the
comparator sums baseline cost/energy/penalty over exactly the first `H`
hours, computes absolute savings as baseline total minus optimized total,
and projects monthly savings as `(savings / H) × 720` and annual savings
as monthly × 12. -/
theorem C8_comparator_truncates_and_projects (pumps : List Pump) (sol : Solution)
    (blocks : List (List BaselineRow)) (H : ℕ)
    (hH : sol.schedule.length = H) (hpos : 0 < H)
    (hlen : ∀ b ∈ blocks, b.length = pumps.length)
    (hcov : H ≤ blocks.length) :
    (compare_baseline_vs_optimized pumps sol blocks.flatten).baseline_cost
        = ((blocks.take H).map fun b => (b.map BaselineRow.total_cost_fcfa).sum).sum
    ∧ (compare_baseline_vs_optimized pumps sol blocks.flatten).savings_fcfa
        = ((blocks.take H).map fun b => (b.map BaselineRow.total_cost_fcfa).sum).sum
          - sol.total_cost
    ∧ (compare_baseline_vs_optimized pumps sol blocks.flatten).energy_savings_kwh
        = ((blocks.take H).map fun b => (b.map BaselineRow.power_kw).sum).sum
          - sol.total_energy
    ∧ (compare_baseline_vs_optimized pumps sol blocks.flatten).penalty_reduction
        = ((blocks.take H).map fun b => (b.map BaselineRow.penalty_fcfa).sum).sum
          - sol.total_penalties
    ∧ (compare_baseline_vs_optimized pumps sol blocks.flatten).monthly_savings_projection
        = some ((((blocks.take H).map fun b => (b.map BaselineRow.total_cost_fcfa).sum).sum
            - sol.total_cost) / (H : ℚ) * 720)
    ∧ (compare_baseline_vs_optimized pumps sol blocks.flatten).annual_savings_projection
        = some ((((blocks.take H).map fun b => (b.map BaselineRow.total_cost_fcfa).sum).sum
            - sol.total_cost) / (H : ℚ) * 720 * 12) := by
  have hne : ((H : ℚ)) ≠ 0 := Nat.cast_ne_zero.mpr (by omega)
  have key1 := take_flatten_map_sum pumps.length H blocks BaselineRow.total_cost_fcfa hlen hcov
  have key2 := take_flatten_map_sum pumps.length H blocks BaselineRow.power_kw hlen hcov
  have key3 := take_flatten_map_sum pumps.length H blocks BaselineRow.penalty_fcfa hlen hcov
  refine ⟨?_, ?_, ?_, ?_, ?_, ?_⟩ <;>
    simp [compare_baseline_vs_optimized, hH, safeDiv, hne, key1, key2, key3]

/-- Witness for C8 at a concrete one-hour, one-pump instance. -/
theorem C8_witness :
    (compare_baseline_vs_optimized [pumpP1] solDemo baselineBlocksDemo.flatten).baseline_cost
        = ((baselineBlocksDemo.take 1).map fun b => (b.map BaselineRow.total_cost_fcfa).sum).sum
    ∧ (compare_baseline_vs_optimized [pumpP1] solDemo baselineBlocksDemo.flatten).savings_fcfa
        = ((baselineBlocksDemo.take 1).map fun b => (b.map BaselineRow.total_cost_fcfa).sum).sum
          - solDemo.total_cost
    ∧ (compare_baseline_vs_optimized [pumpP1] solDemo baselineBlocksDemo.flatten).energy_savings_kwh
        = ((baselineBlocksDemo.take 1).map fun b => (b.map BaselineRow.power_kw).sum).sum
          - solDemo.total_energy
    ∧ (compare_baseline_vs_optimized [pumpP1] solDemo baselineBlocksDemo.flatten).penalty_reduction
        = ((baselineBlocksDemo.take 1).map fun b => (b.map BaselineRow.penalty_fcfa).sum).sum
          - solDemo.total_penalties
    ∧ (compare_baseline_vs_optimized [pumpP1] solDemo baselineBlocksDemo.flatten).monthly_savings_projection
        = some ((((baselineBlocksDemo.take 1).map fun b => (b.map BaselineRow.total_cost_fcfa).sum).sum
            - solDemo.total_cost) / (1 : ℚ) * 720)
    ∧ (compare_baseline_vs_optimized [pumpP1] solDemo baselineBlocksDemo.flatten).annual_savings_projection
        = some ((((baselineBlocksDemo.take 1).map fun b => (b.map BaselineRow.total_cost_fcfa).sum).sum
            - solDemo.total_cost) / (1 : ℚ) * 720 * 12) :=
  C8_comparator_truncates_and_projects [pumpP1] solDemo baselineBlocksDemo 1
    rfl (by decide) (by with_unfolding_all decide) (by decide)

end AgriWater
